import Mathlib

/-
Verification of the probe/runtime core of the puppeteer repository.

Shallow embedding of:
  src/python_runtime/probe.py   (class Probed, function probe)
  src/ai_runtime/runtime.py     (class AIRuntime)
  src/ai_runtime/prompts.py     (the prompt templates)

Python values are modelled by the inductive `Val` (the JSON-serialisable
fragment that flows through this code).  Python's object store is modelled
by an explicit heap (`List Val`) so that reference sharing versus
`copy.deepcopy` is observable.  External collaborators are parameters:
`llm_call` (the oracle, `agent.llm_call`), `json_loads` (`json.loads`,
`none` = raise), `md5hex` (`hashlib.md5(...).hexdigest()`).
-/

/-- A Python/JSON value, as produced by `json.loads` and passed as call
arguments in this code base. -/
inductive Val where
  | vnone
  | vbool (b : Bool)
  | vint (n : Int)
  | vstr (s : String)
  | vlist (xs : List Val)
  | vdict (fs : List (String × Val))

mutual
/-- Decidable equality for `Val` (the automatic derivation does not handle
the nested `List` occurrences). -/
def Val.decEq : (a b : Val) → Decidable (a = b)
  | .vnone, .vnone => isTrue rfl
  | .vbool x, .vbool y =>
      if h : x = y then isTrue (h ▸ rfl) else isFalse (fun e => h (by injection e))
  | .vint x, .vint y =>
      if h : x = y then isTrue (h ▸ rfl) else isFalse (fun e => h (by injection e))
  | .vstr x, .vstr y =>
      if h : x = y then isTrue (h ▸ rfl) else isFalse (fun e => h (by injection e))
  | .vlist xs, .vlist ys =>
      match Val.decEqList xs ys with
      | isTrue h => isTrue (h ▸ rfl)
      | isFalse h => isFalse (fun e => h (by injection e))
  | .vdict xs, .vdict ys =>
      match Val.decEqPairs xs ys with
      | isTrue h => isTrue (h ▸ rfl)
      | isFalse h => isFalse (fun e => h (by injection e))
  | .vnone, .vbool _ => isFalse (fun h => Val.noConfusion h)
  | .vnone, .vint _ => isFalse (fun h => Val.noConfusion h)
  | .vnone, .vstr _ => isFalse (fun h => Val.noConfusion h)
  | .vnone, .vlist _ => isFalse (fun h => Val.noConfusion h)
  | .vnone, .vdict _ => isFalse (fun h => Val.noConfusion h)
  | .vbool _, .vnone => isFalse (fun h => Val.noConfusion h)
  | .vbool _, .vint _ => isFalse (fun h => Val.noConfusion h)
  | .vbool _, .vstr _ => isFalse (fun h => Val.noConfusion h)
  | .vbool _, .vlist _ => isFalse (fun h => Val.noConfusion h)
  | .vbool _, .vdict _ => isFalse (fun h => Val.noConfusion h)
  | .vint _, .vnone => isFalse (fun h => Val.noConfusion h)
  | .vint _, .vbool _ => isFalse (fun h => Val.noConfusion h)
  | .vint _, .vstr _ => isFalse (fun h => Val.noConfusion h)
  | .vint _, .vlist _ => isFalse (fun h => Val.noConfusion h)
  | .vint _, .vdict _ => isFalse (fun h => Val.noConfusion h)
  | .vstr _, .vnone => isFalse (fun h => Val.noConfusion h)
  | .vstr _, .vbool _ => isFalse (fun h => Val.noConfusion h)
  | .vstr _, .vint _ => isFalse (fun h => Val.noConfusion h)
  | .vstr _, .vlist _ => isFalse (fun h => Val.noConfusion h)
  | .vstr _, .vdict _ => isFalse (fun h => Val.noConfusion h)
  | .vlist _, .vnone => isFalse (fun h => Val.noConfusion h)
  | .vlist _, .vbool _ => isFalse (fun h => Val.noConfusion h)
  | .vlist _, .vint _ => isFalse (fun h => Val.noConfusion h)
  | .vlist _, .vstr _ => isFalse (fun h => Val.noConfusion h)
  | .vlist _, .vdict _ => isFalse (fun h => Val.noConfusion h)
  | .vdict _, .vnone => isFalse (fun h => Val.noConfusion h)
  | .vdict _, .vbool _ => isFalse (fun h => Val.noConfusion h)
  | .vdict _, .vint _ => isFalse (fun h => Val.noConfusion h)
  | .vdict _, .vstr _ => isFalse (fun h => Val.noConfusion h)
  | .vdict _, .vlist _ => isFalse (fun h => Val.noConfusion h)

def Val.decEqList : (xs ys : List Val) → Decidable (xs = ys)
  | [], [] => isTrue rfl
  | [], _ :: _ => isFalse (fun h => List.noConfusion h)
  | _ :: _, [] => isFalse (fun h => List.noConfusion h)
  | x :: xs, y :: ys =>
      match Val.decEq x y with
      | isFalse h => isFalse (fun e => h (by injection e))
      | isTrue h1 =>
        match Val.decEqList xs ys with
        | isTrue h2 => isTrue (by rw [h1, h2])
        | isFalse h2 => isFalse (fun e => h2 (by injection e))

def Val.decEqPairs : (xs ys : List (String × Val)) → Decidable (xs = ys)
  | [], [] => isTrue rfl
  | [], _ :: _ => isFalse (fun h => List.noConfusion h)
  | _ :: _, [] => isFalse (fun h => List.noConfusion h)
  | (k, v) :: xs, (k', v') :: ys =>
      if hk : k = k' then
        match Val.decEq v v' with
        | isFalse h => isFalse (fun e => h (by cases e; rfl))
        | isTrue hv =>
          match Val.decEqPairs xs ys with
          | isTrue ht => isTrue (by rw [hk, hv, ht])
          | isFalse ht => isFalse (fun e => ht (by injection e))
      else isFalse (fun e => hk (by cases e; rfl))
end

instance : DecidableEq Val := Val.decEq

/-- Python truthiness of a value (used on the fields extracted from the
decision JSON: `if should_be_interrupted:` etc.). -/
def Val.truthy : Val → Bool
  | .vnone => false
  | .vbool b => b
  | .vint n => n != 0
  | .vstr s => !s.isEmpty
  | .vlist xs => !xs.isEmpty
  | .vdict fs => !fs.isEmpty

/-- `type(obj).__name__` for the modelled values. -/
def Val.pyTypeName : Val → String
  | .vnone => "NoneType"
  | .vbool _ => "bool"
  | .vint _ => "int"
  | .vstr _ => "str"
  | .vlist _ => "list"
  | .vdict _ => "dict"

/-- JSON string escaping (the fragment `json.dumps` needs here). -/
def jsonEscape (s : String) : String :=
  s.foldl (fun acc c =>
    if c = '\"' then acc ++ "\\\""
    else if c = '\\' then acc ++ "\\\\"
    else if c = '\n' then acc ++ "\\n"
    else acc.push c) ""

mutual
/-- `json.dumps` of a value.  (The source passes `indent=2`; the extra
whitespace is presentation-only — it feeds prompts and the deterministic
cache-key hash — and is omitted here.) -/
def Val.dumps : Val → String
  | .vnone => "null"
  | .vbool true => "true"
  | .vbool false => "false"
  | .vint n => toString n
  | .vstr s => "\"" ++ jsonEscape s ++ "\""
  | .vlist xs => "[" ++ Val.dumpsList xs ++ "]"
  | .vdict fs => "\x7b" ++ Val.dumpsFields fs ++ "\x7d"

def Val.dumpsList : List Val → String
  | [] => ""
  | [x] => Val.dumps x
  | x :: y :: xs => Val.dumps x ++ ", " ++ Val.dumpsList (y :: xs)

def Val.dumpsFields : List (String × Val) → String
  | [] => ""
  | [(k, v)] => "\"" ++ jsonEscape k ++ "\": " ++ Val.dumps v
  | (k, v) :: g :: fs =>
      "\"" ++ jsonEscape k ++ "\": " ++ Val.dumps v ++ ", " ++ Val.dumpsFields (g :: fs)
end

mutual
/-- Python `repr` of a value (used by `str` on containers). -/
def Val.pyrepr : Val → String
  | .vnone => "None"
  | .vbool true => "True"
  | .vbool false => "False"
  | .vint n => toString n
  | .vstr s => "'" ++ s ++ "'"
  | .vlist xs => "[" ++ Val.pyreprList xs ++ "]"
  | .vdict fs => "\x7b" ++ Val.pyreprFields fs ++ "\x7d"

def Val.pyreprList : List Val → String
  | [] => ""
  | [x] => Val.pyrepr x
  | x :: y :: xs => Val.pyrepr x ++ ", " ++ Val.pyreprList (y :: xs)

def Val.pyreprFields : List (String × Val) → String
  | [] => ""
  | [(k, v)] => "'" ++ k ++ "': " ++ Val.pyrepr v
  | (k, v) :: g :: fs => "'" ++ k ++ "': " ++ Val.pyrepr v ++ ", " ++ Val.pyreprFields (g :: fs)
end

/-- Python `str` of a value (string formatting in the templates). -/
def Val.pystr : Val → String
  | .vstr s => s
  | v => Val.pyrepr v

/-- Exceptions raised by the modelled code. -/
inductive PyErr where
  | jsonDecodeError
  | attributeError
  | keyError (k : String)
  | ioError
  | objException
deriving DecidableEq

/-- First-match association lookup (Python `dict` read; keys are unique in
every dict this code builds). -/
def assocGet {α : Type} (l : List (String × α)) (k : String) : Option α :=
  match l with
  | [] => none
  | (k', v) :: t => if k' = k then some v else assocGet t k

/-- Association update (Python `dict` assignment: replace or append). -/
def assocSet {α : Type} (l : List (String × α)) (k : String) (v : α) : List (String × α) :=
  match l with
  | [] => [(k, v)]
  | (k', v') :: t => if k' = k then (k, v) :: t else (k', v') :: assocSet t k v

/-- The Python object store: addresses are list indices, reads of stale
addresses yield `vnone`. -/
def readHeap (h : List Val) (a : Nat) : Val := h.getD a .vnone

/-- Allocate a fresh object holding `v`; returns its address. -/
def halloc (v : Val) (h : List Val) : Nat × List Val := (h.length, h ++ [v])

/-- In-place mutation of the object at address `a` (a caller mutating a
value it was returned). -/
def writeHeap (h : List Val) (a : Nat) (v : Val) : List Val := h.set a v

/-- One transcript record of an entry's history.  The source stores the
history as one string built by appending `"\n" + TEMPLATE.format(...)`;
each record here is one such appended block (rendered by `renderRec`),
so the source string is `renderHist` of this list. -/
inductive HRec where
  | initRec (type_ initial_state user_instructions : String)
  | decisionRec (event_content : String) (interrupted reported stopped : Bool)
  | listenRec (result : String)
  | respondRec (response : Val)
deriving DecidableEq

/-- `INIT.format(...)` from src/ai_runtime/prompts.py. -/
def INIT_fmt (type_ initial_state user_instructions : String) : String :=
  "\nYou are in control of an object in a Python program.\nThe object:\n- Has type "
  ++ type_ ++ "\n- Has initial state: " ++ initial_state ++
  "\n\nYour task is to monitor the object's interactions and:\n- Decide whether you want to interrupt the operation or not.\n    - If you decided to interrupt it:\n        - The operation is not executed on the underlying object.\n        - And you have to provide a response that will be returned instead of the actual operation result.\n        - You will be informed of how the response should be formatted.\n    - If you decided not to interrupt it:\n        - The operation is executed on the underlying object.\n        - And you will be informed of the result of the operation.\n\nThe user asks you to:\n"
  ++ user_instructions ++
  "\n\nExamples for stopping:\n- Should set stop when the object's current state matches the desired outcome of the user instructions\n- This includes object's content, length, etc.\n"

/-- `DECISION_HISTORY_TEMPLATE.format(...)`. -/
def DECISION_HISTORY_fmt (event_content : String) (interrupted reported stopped : Bool) : String :=
  "\nThis event was happening:\n" ++ event_content ++ "\nYou decided to "
  ++ (if interrupted then "interrupt" else "not interrupt")
  ++ " the operation.\nAlso the operation was "
  ++ (if reported then "reported" else "not reported")
  ++ " to the developer.\nThis program "
  ++ (if stopped then "stopped" else "not stopped")
  ++ " before this operation happened.\n"

/-- `LISTENING_HISTORY_TEMPLATE.format(...)`. -/
def LISTENING_HISTORY_fmt (result : String) : String :=
  "\nThe result of the event was:\n" ++ result ++ "\n"

/-- `RESPONDING_HISTORY_TEMPLATE.format(...)`. -/
def RESPONDING_HISTORY_fmt (response : Val) : String :=
  "\nThe response you provided was:\n" ++ Val.pystr response ++ "\n"

/-- Render one history record to the string block the source appends. -/
def renderRec : HRec → String
  | .initRec t s u => INIT_fmt t s u
  | .decisionRec e i r st => DECISION_HISTORY_fmt e i r st
  | .listenRec r => LISTENING_HISTORY_fmt r
  | .respondRec v => RESPONDING_HISTORY_fmt v

/-- The history string as the source stores it: the records joined by the
`"\n"` that each `history += "\n" + ...` inserts. -/
def renderHist (l : List HRec) : String :=
  String.intercalate "\n" (l.map renderRec)

/-- `ASK_MODEL_DECISION.format(...)`. -/
def ASK_MODEL_DECISION_fmt (history event_content user_additional_query : String) : String :=
  "\nWhat happened so far with this object:\n" ++ history
  ++ "\n\nUser additional query (if any):\n" ++ user_additional_query
  ++ "\n\nAn event is happening that is a method/function call on the object. The event is:\n"
  ++ event_content ++
  "\nDo you want to interrupt this operation? \nDo you think this operation should be reported back to the developer?\nShould we stop the program before this operation happens?\nOnly stop when the object's current state includes a basketball team; if unsure, do not stop.\nThe answer json schema is:\n\x7b\n    \"should_interrupt\": bool,\n    \"should_report\": bool,\n    \"should_stop\": bool\n\x7d\n"

/-- `RESPOND_EVENT.format(...)`. -/
def RESPOND_EVENT_fmt (history event_content response_format response_example user_additional_query : String) : String :=
  "\nWhat happened so far with this object:\n" ++ history
  ++ "\n\nUser additional query (if any):\n" ++ user_additional_query
  ++ "\n\nYou decided to interrupt the operation. The event is:\n" ++ event_content
  ++ "\nThe output response should be in the following json schema:\n" ++ response_format
  ++ "\nAn example of what the response should look like is:\n" ++ response_example
  ++ "\nYour respond should be just a valid json object that conforms to the schema above and nothing else.\n"

/-- `LISTEN_EVENT.format(...)`. -/
def LISTEN_EVENT_fmt (history event_content result user_additional_query : String) : String :=
  "\nWhat happened so far with this object:\n" ++ history
  ++ "\n\nUser additional query (if any):\n" ++ user_additional_query
  ++ "\n\nYou decided NOT to interrupt the operation. The event is:\n" ++ event_content
  ++ "\nThe result of the operation is:\n" ++ result
  ++ "\nPlease acknowledge the result and update your understanding of the object's state.\n"

/-- State of `class AIRuntime` (src/ai_runtime/runtime.py).
`probed_objects` is keyed by the entry node; the entry's `_prefix` string
stands for that key (the dict uses `hash(self._prefix)`, and lookups are
always made with the entry node itself).  `response_cache` maps a cache
key to the *address* of the cached object, making reference sharing
versus deep copy observable; when `enable_cache` is false the source
sets the cache to `None` and never touches it, modelled by the list
staying empty and every cache step being guarded by `enable_cache`. -/
structure AIRuntime where
  probed_objects : List (String × List HRec)
  enable_cache : Bool
  response_cache : List (String × Nat)
  user_query_hash : String
  user_query_content : String
deriving DecidableEq

/-- The world an operation runs in: the runtime state, the Python object
heap, the external files, and observation traces.
`user_query_file` is the content of `user_query.md` (`none` = absent,
`open` raises `FileNotFoundError`); `report_log` is the sequence of
blocks appended to `report.md` (timestamp and event data);
`report_write_ok` says whether appending to `report.md` succeeds;
`llm_trace` records every prompt sent to `agent.llm_call` (so the number
of oracle consultations is its length); `obj_trace` records every
invocation of the wrapped callable; `now` is the current
`datetime.datetime.now().isoformat()`. -/
structure World where
  rt : AIRuntime
  heap : List Val
  user_query_file : Option String
  report_log : List (String × String)
  report_write_ok : Bool
  llm_trace : List String
  obj_trace : List (List Val × List (String × Val))
  now : String
deriving DecidableEq

section RuntimeOps

/- The external collaborators, as function parameters:
`llm_call` is `agent.llm_call` (the Decision Oracle);
`json_loads` is `json.loads` (`none` models a raised decode error);
`md5hex` is `hashlib.md5(s.encode()).hexdigest()`. -/
variable (llm_call : String → String) (json_loads : String → Option Val)
  (md5hex : String → String)

/-- `AIRuntime.get_user_additional_query` (src/ai_runtime/runtime.py).
Reads `user_query.md` (`file` is its content, `none` = absent, in which
case the `FileNotFoundError` handler returns `""` without touching any
state).  When caching is enabled and the content hash differs from the
last-seen hash, the whole response cache is cleared and the new hash and
content are adopted. -/
def get_user_additional_query (st : AIRuntime) (file : Option String) :
    String × AIRuntime :=
  match file with
  | none => ("", st)
  | some content =>
      if st.enable_cache then
        let new_hash := md5hex content
        if new_hash ≠ st.user_query_hash then
          (content,
            { st with
                response_cache := []
                user_query_hash := new_hash
                user_query_content := content })
        else (content, st)
      else (content, st)

end RuntimeOps

/-- A `Probed` node (src/python_runtime/probe.py).  The source's `_entry`
is a (cyclic) reference to the root node of the chain; here it is
flattened to the root fields an operation actually reads: `entryLabel`
is the entry's `_prefix` (which keys the runtime's `probed_objects` and
identifies the shared history), and `entryStopAfter` is the entry's
`_stop_after` (read by `_resolve_stop_after`).  `runtimeId` identifies
the shared `_runtime` object (children copy `entry._runtime`); its state
lives in the ambient `World`.  `pathLabel` is `_prefix`, `promptTxt` is
`_prompt`. -/
structure Probed where
  obj : Val
  promptTxt : String
  pathLabel : String
  stop_after : Option Bool
  entryLabel : String
  entryStopAfter : Option Bool
  runtimeId : Nat
deriving DecidableEq

/-- `RESERVED_FIELDS` from src/python_runtime/probe.py. -/
def RESERVED_FIELDS : List String :=
  ["_obj", "_prompt", "_prefix", "_entry", "_runtime", "_stop_after",
   "_getattr_impl", "RESERVED_FIELDS"]

/-- The event descriptor `Probed.__call__` serialises:
`{"function": self._prefix, "args": args, "kwargs": kwargs}`. -/
structure EventData where
  function : String
  args : List Val
  kwargs : List (String × Val)
deriving DecidableEq

/-- Build the event descriptor for a call on node `p`. -/
def mkEventData (p : Probed) (args : List Val) (kwargs : List (String × Val)) :
    EventData :=
  { function := p.pathLabel, args := args, kwargs := kwargs }

/-- `json.dumps` of the event descriptor. -/
def EventData.dumps (e : EventData) : String :=
  Val.dumps (.vdict
    [("function", .vstr e.function), ("args", .vlist e.args),
     ("kwargs", .vdict e.kwargs)])

/-- `Probed._resolve_stop_after`: the entry's `_stop_after` if set,
otherwise the `PROBE_STOP_AFTER` environment fallback (`envStop` is the
truth value of that parse). -/
def resolve_stop_after (envStop : Bool) (p : Probed) : Bool :=
  match p.entryStopAfter with
  | some b => b
  | none => envStop

/-- `AIRuntime.register_probing`: seed the entry's history with the
`INIT` record built from the wrapped object's type name, its rendered
state, and the supervision instructions. -/
def register_probing (w : World) (p : Probed) : World :=
  { w with rt :=
      { w.rt with probed_objects :=
          (assocSet w.rt.probed_objects p.entryLabel
            [HRec.initRec (Val.pyTypeName p.obj) (Val.pystr p.obj) p.promptTxt]) } }

/-- Build a root probe node (`Probed.__init__` with `entry=None`, i.e.
`probe(value, prompt, runtime)`), and register it with the runtime.
`freshLabel` stands for the generated
`f"{obj.__class__.__name__}_{str(uuid.uuid4())[:8]}"`. -/
def mkRoot (obj : Val) (promptTxt : String) (stop_after : Option Bool)
    (runtimeId : Nat) (freshLabel : String) (w : World) : Probed × World :=
  let p : Probed :=
    { obj := obj, promptTxt := promptTxt, pathLabel := freshLabel,
      stop_after := stop_after, entryLabel := freshLabel,
      entryStopAfter := stop_after, runtimeId := runtimeId }
  (p, register_probing w p)

/-- `Probed._getattr_impl` (also the body of `__getattr__`): reserved
names are internal bookkeeping resolved on the proxy itself (modelled as
`none` — no child node, no interception); any other name is resolved on
the wrapped value (`getattr_v`, which may raise) and wrapped in a fresh
child node that shares `_prompt`, `_stop_after`, `_entry` (hence
`_runtime`) and extends `_prefix` by `"." + name`. -/
def getattr_impl (getattr_v : Val → String → Except PyErr Val)
    (p : Probed) (name : String) : Except PyErr (Option Probed) :=
  if name ∈ RESERVED_FIELDS then .ok none
  else
    match getattr_v p.obj name with
    | .error e => .error e
    | .ok attr =>
        .ok (some
          { obj := attr, promptTxt := p.promptTxt,
            pathLabel := p.pathLabel ++ "." ++ name,
            stop_after := p.stop_after, entryLabel := p.entryLabel,
            entryStopAfter := p.entryStopAfter, runtimeId := p.runtimeId })

/-- `Probed.__setattr__`: a reserved name sets a bookkeeping field on the
proxy itself (the branch `super().__setattr__`, used by `__init__`; it
touches neither the wrapped value nor the world and is not re-modelled
field-by-field here); any other name is forwarded to
`setattr(self._obj, name, value)` (`setattr_v`). -/
def Probed.setattrImpl (setattr_v : Val → String → Val → Except PyErr Val)
    (p : Probed) (w : World) (name : String) (v : Val) :
    Except PyErr (Probed × World) :=
  if name ∈ RESERVED_FIELDS then .ok (p, w)
  else
    match setattr_v p.obj name v with
    | .error e => .error e
    | .ok o => .ok ({ p with obj := o }, w)

/-- `Probed.__getitem__`: `return self._obj[key]` — direct item access on
the wrapped value (`getitem_v`), nothing else. -/
def Probed.getitem (getitem_v : Val → Val → Except PyErr Val)
    (p : Probed) (w : World) (key : Val) : Except PyErr (Val × World) :=
  match getitem_v p.obj key with
  | .error e => .error e
  | .ok r => .ok (r, w)

/-- `Probed.__setitem__`: `self._obj[key] = value` — direct item
assignment on the wrapped value (`setitem_v`). -/
def Probed.setitem (setitem_v : Val → Val → Val → Except PyErr Val)
    (p : Probed) (w : World) (key v : Val) : Except PyErr (Probed × World) :=
  match setitem_v p.obj key v with
  | .error e => .error e
  | .ok o => .ok ({ p with obj := o }, w)

/-- `Probed.__eq__` restricted to two probe nodes: compares the wrapped
values. -/
def Probed.beqP (p q : Probed) : Bool := p.obj == q.obj

/-- `Probed.__hash__`: `hash(self._prefix)`.  `hashStr` is Python's
string hash. -/
def Probed.phash (hashStr : String → Int) (p : Probed) : Int :=
  hashStr p.pathLabel

section RuntimeOps2

variable (llm_call : String → String) (json_loads : String → Option Val)
  (md5hex : String → String)

/-- `AIRuntime.ask_model_decisions`: look up the entry's history (a
missing entry raises `KeyError`), read the instruction source (which may
clear the cache), send the decision prompt to the oracle, parse its
reply as JSON (a parse failure raises), read the three flags with
`.get(field, False)` (a non-dict reply raises `AttributeError`; missing
fields default to false; Python truthiness decides each flag), append
one decision record to the history, and return the flags. -/
def ask_model_decisions (w : World) (entryKey event_content : String) :
    Except PyErr ((Bool × Bool × Bool) × World) :=
  match assocGet w.rt.probed_objects entryKey with
  | none => .error (.keyError entryKey)
  | some history =>
    let uq := (get_user_additional_query md5hex w.rt w.user_query_file).1
    let rt1 := (get_user_additional_query md5hex w.rt w.user_query_file).2
    let prompt := ASK_MODEL_DECISION_fmt (renderHist history) event_content uq
    let w1 := { w with rt := rt1, llm_trace := w.llm_trace ++ [prompt] }
    match json_loads (llm_call prompt) with
    | none => .error .jsonDecodeError
    | some output =>
      match output with
      | .vdict fs =>
        let si := Val.truthy ((assocGet fs "should_interrupt").getD (.vbool false))
        let sr := Val.truthy ((assocGet fs "should_report").getD (.vbool false))
        let ss := Val.truthy ((assocGet fs "should_stop").getD (.vbool false))
        let history2 := history ++ [HRec.decisionRec event_content si sr ss]
        .ok ((si, sr, ss),
          { w1 with rt :=
              { rt1 with probed_objects :=
                  assocSet rt1.probed_objects entryKey history2 } })
      | _ => .error .attributeError

/-- `AIRuntime.listen_event`: look up the history, read the instruction
source, send the acknowledgement prompt to the oracle (its reply is
discarded), and append one listening record. -/
def listen_event (w : World) (entryKey event_content : String) (result : Val) :
    Except PyErr World :=
  match assocGet w.rt.probed_objects entryKey with
  | none => .error (.keyError entryKey)
  | some history =>
    let uq := (get_user_additional_query md5hex w.rt w.user_query_file).1
    let rt1 := (get_user_additional_query md5hex w.rt w.user_query_file).2
    let prompt :=
      LISTEN_EVENT_fmt (renderHist history) event_content (Val.pystr result) uq
    let _ := llm_call prompt  -- the oracle's acknowledgement reply is discarded
    let history2 := history ++ [HRec.listenRec (Val.pystr result)]
    .ok { w with
            rt := { rt1 with probed_objects :=
                      assocSet rt1.probed_objects entryKey history2 }
            llm_trace := w.llm_trace ++ [prompt] }

/-- `AIRuntime.respond_event`: read the instruction source first (this
may clear the cache); when caching is enabled compute the cache key
`md5(event_content + "|" + result_schema)` and on a hit return a
`copy.deepcopy` of the cached object (a fresh heap cell holding the same
value) with no oracle consultation and no history mutation.  Otherwise
look up the history (`KeyError` if the entry is unknown), consult the
oracle, parse its reply as JSON (failure raises), append one responding
record, and — when caching is enabled — store the parsed object in the
cache and return that same object (the cache entry and the returned
reference share one heap cell). -/
def respond_event (w : World)
    (entryKey event_content result_schema result_example : String) :
    Except PyErr (Nat × World) :=
  let uq := (get_user_additional_query md5hex w.rt w.user_query_file).1
  let rt1 := (get_user_additional_query md5hex w.rt w.user_query_file).2
  let w1 := { w with rt := rt1 }
  let cache_key := md5hex (event_content ++ "|" ++ result_schema)
  match (if rt1.enable_cache then assocGet rt1.response_cache cache_key else none) with
  | some a =>
      let fresh := halloc (readHeap w1.heap a) w1.heap
      .ok (fresh.1, { w1 with heap := fresh.2 })
  | none =>
    match assocGet rt1.probed_objects entryKey with
    | none => .error (.keyError entryKey)
    | some history =>
      let prompt := RESPOND_EVENT_fmt (renderHist history) event_content
        result_schema result_example uq
      let w2 := { w1 with llm_trace := w1.llm_trace ++ [prompt] }
      match json_loads (llm_call prompt) with
      | none => .error .jsonDecodeError
      | some output =>
        let history2 := history ++ [HRec.respondRec output]
        let rt2 := { rt1 with probed_objects :=
                       assocSet rt1.probed_objects entryKey history2 }
        let fresh := halloc output w2.heap
        let rt3 :=
          if rt2.enable_cache then
            { rt2 with response_cache := assocSet rt2.response_cache cache_key fresh.1 }
          else rt2
        .ok (fresh.1, { w2 with rt := rt3, heap := fresh.2 })

/-- The `should_be_reported` branch of `Probed.__call__`: append a
timestamped block holding the event data to `report.md`.  The source has
no handler around this write, so a failing write raises. -/
def reportStep (event_content : String) (sr : Bool) (w : World) :
    Except PyErr World :=
  if sr then
    if w.report_write_ok then
      .ok { w with report_log := w.report_log ++ [(w.now, event_content)] }
    else .error .ioError
  else .ok w

/-- Record one invocation of the wrapped callable (both the best-effort
example attempt on the interrupt path and the real execution on the
non-interrupt path). -/
def recordObjAttempt (args : List Val) (kwargs : List (String × Val))
    (w : World) : World :=
  { w with obj_trace := w.obj_trace ++ [(args, kwargs)] }

/-- `Probed.__call__` (src/python_runtime/probe.py).  `objCall` is the
wrapped callable `self._obj.__call__` (deterministic; `.error` models a
raised exception), `objDoc` is `self._obj.__doc__`, `envStop` the
`PROBE_STOP_AFTER` fallback.  Steps, in source order: build the event
descriptor, ask the runtime for the three decision flags, append the
report block if `should_be_reported` (unhandled failure aborts), pause
(`ipdb.set_trace()`, a pure interactive suspension with no state effect)
if stopping before, then either fabricate a substitute (interrupt: the
real call is attempted once purely to harvest an example, any exception
is swallowed and the placeholder is used; the substitute returned by
`respond_event` is dereferenced and returned) or execute for real and
acknowledge via `listen_event`. -/
def Probed.call (objCall : List Val → List (String × Val) → Except PyErr Val)
    (objDoc : Option String) (_envStop : Bool) (p : Probed) (w : World)
    (args : List Val) (kwargs : List (String × Val)) :
    Except PyErr (Val × World) :=
  let data := (mkEventData p args kwargs).dumps
  match ask_model_decisions llm_call json_loads md5hex w p.entryLabel data with
  | .error e => .error e
  | .ok ((si, sr, _ss), w1) =>
    match reportStep data sr w1 with
    | .error e => .error e
    | .ok w2 =>
      -- should_be_stopped and not stop_after: ipdb.set_trace() — no state effect
      if si then
        let result_schema := match objDoc with | some d => d | none => "None"
        let w3 := recordObjAttempt args kwargs w2
        let result_example :=
          match objCall args kwargs with
          | .ok r => Val.pystr r
          | .error _ => "No example provided"
        match respond_event llm_call json_loads md5hex w3 p.entryLabel data
            result_schema result_example with
        | .error e => .error e
        | .ok (a, w4) =>
            -- should_be_stopped and stop_after: ipdb.set_trace() — no state effect
            .ok (readHeap w4.heap a, w4)
      else
        let w3 := recordObjAttempt args kwargs w2
        match objCall args kwargs with
        | .error e => .error e
        | .ok result =>
          match listen_event llm_call md5hex w3 p.entryLabel data result with
          | .error e => .error e
          | .ok w4 =>
              -- should_be_stopped and stop_after: ipdb.set_trace() — no state effect
              .ok (result, w4)

end RuntimeOps2

/-- The transcript of entry `k` in world `w` (empty when unregistered). -/
def historyOf (w : World) (k : String) : List HRec :=
  (assocGet w.rt.probed_objects k).getD []

/-! ### Helper lemmas -/

theorem assocGet_assocSet_self {α : Type} (l : List (String × α)) (k : String) (v : α) :
    assocGet (assocSet l k v) k = some v := by
  induction l with
  | nil => simp [assocGet, assocSet]
  | cons hd t ih =>
      obtain ⟨k', v'⟩ := hd
      by_cases h : k' = k
      · simp [assocGet, assocSet, h]
      · simp [assocGet, assocSet, h, ih]

theorem assocGet_assocSet_ne {α : Type} (l : List (String × α)) (k k' : String) (v : α)
    (h : k' ≠ k) : assocGet (assocSet l k v) k' = assocGet l k' := by
  induction l with
  | nil => simp [assocGet, assocSet, Ne.symm h]
  | cons hd t ih =>
      obtain ⟨k₀, v₀⟩ := hd
      by_cases h0 : k₀ = k
      · subst h0
        simp [assocGet, assocSet, Ne.symm h]
      · simp only [assocSet, if_neg h0, assocGet]
        by_cases h1 : k₀ = k'
        · simp [h1]
        · simp [h1, ih]

theorem readHeap_append_lt (h : List Val) (a : Nat) (v : Val) (ha : a < h.length) :
    readHeap (h ++ [v]) a = readHeap h a := List.getD_append h [v] Val.vnone a ha

theorem readHeap_halloc_fresh (h : List Val) (v : Val) :
    readHeap (h ++ [v]) h.length = v := by
  simp [readHeap, List.getD_append_right h [v] Val.vnone h.length (Nat.le_refl _)]

/-- Appending a copy of the object at `a` leaves every read of `a`
unchanged (also for stale addresses). -/
theorem readHeap_append_copy (h : List Val) (a : Nat) :
    readHeap (h ++ [readHeap h a]) a = readHeap h a := by
  rcases Nat.lt_or_ge a h.length with ha | ha
  · exact readHeap_append_lt h a _ ha
  · rcases Nat.eq_or_lt_of_le ha with ha' | ha'
    · rw [← ha']
      exact readHeap_halloc_fresh h _
    · have h1 : readHeap h a = Val.vnone := List.getD_eq_default _ _ ha
      have h2 : readHeap (h ++ [readHeap h a]) a = Val.vnone := by
        apply List.getD_eq_default
        simpa [List.length_append] using ha'
      rw [h2, h1]

/-! ### C4: probe-node equality and hashing -/

/-- C4, counterexample: the claim "two Probed nodes hash equal iff their
wrapped values hash equal" is false.  A root node (path label
`List_a1b2c3d4`) and its `.append` child wrap values with equal hashes,
yet `__hash__` — which hashes `self._prefix` — distinguishes them.  The
string hash is instantiated with any function separating the two labels
(here: length), as Python's does. -/
theorem c4_hash_counterexample :
    ¬ ((Probed.phash (fun s => (s.length : Int))
          { obj := Val.vlist [], promptTxt := "", pathLabel := "List_a1b2c3d4",
            stop_after := some true, entryLabel := "List_a1b2c3d4",
            entryStopAfter := some true, runtimeId := 0 } =
        Probed.phash (fun s => (s.length : Int))
          { obj := Val.vlist [], promptTxt := "", pathLabel := "List_a1b2c3d4.append",
            stop_after := some true, entryLabel := "List_a1b2c3d4",
            entryStopAfter := some true, runtimeId := 0 }) ↔
       ((fun _ : Val => (0 : Int)) (Val.vlist []) =
        (fun _ : Val => (0 : Int)) (Val.vlist []))) := by
  decide

/-- C4, amended: two probe nodes compare equal iff their wrapped values
compare equal, and a node's hash is the hash of its `pathLabel`
(`_prefix`) — so nodes hash equal iff their path labels hash equal, not
iff their wrapped values do. -/
theorem c4_eq_hash_amended (hashStr : String → Int) (p q : Probed) :
    (Probed.beqP p q = true ↔ p.obj = q.obj) ∧
    Probed.phash hashStr p = hashStr p.pathLabel ∧
    (Probed.phash hashStr p = Probed.phash hashStr q ↔
      hashStr p.pathLabel = hashStr q.pathLabel) := by
  refine ⟨?_, rfl, Iff.rfl⟩
  simp [Probed.beqP, beq_iff_eq]

/-! ### Concrete fixtures used by the witness theorems -/

/-- A concrete oracle. -/
def cLlm : String → String := fun _ => "reply"

/-- A concrete `json.loads` whose replies parse to a verdict with every
flag absent (all default to false). -/
def cJlFalse : String → Option Val := fun _ => some (Val.vdict [])

/-- A concrete `json.loads` whose replies parse to a verdict requesting
an interrupt. -/
def cJlTrue : String → Option Val :=
  fun _ => some (Val.vdict [("should_interrupt", Val.vbool true)])

/-- A concrete stand-in content hash. -/
def cMd5 : String → String := fun s => s

/-- A runtime with one registered entry `"E"` and caching enabled. -/
def cRt0 : AIRuntime :=
  { probed_objects := [("E", [])], enable_cache := true, response_cache := [],
    user_query_hash := "", user_query_content := "" }

/-- A small world around `cRt0`; the instruction-source file is absent. -/
def cW0 : World :=
  { rt := cRt0, heap := [], user_query_file := none, report_log := [],
    report_write_ok := true, llm_trace := [], obj_trace := [], now := "t0" }

/-- A root probe node registered as `"E"`, wrapping `[5]`. -/
def cProbe0 : Probed :=
  { obj := Val.vlist [Val.vint 5], promptTxt := "", pathLabel := "E",
    stop_after := some true, entryLabel := "E", entryStopAfter := some true,
    runtimeId := 0 }

/-- Concrete `__getitem__` semantics of the wrapped list. -/
def cGetitem : Val → Val → Except PyErr Val := fun o k =>
  match o, k with
  | Val.vlist (x :: _), Val.vint 0 => Except.ok x
  | _, _ => Except.error PyErr.attributeError

/-- Concrete `__setitem__` semantics of the wrapped list. -/
def cSetitem : Val → Val → Val → Except PyErr Val := fun o k v =>
  match o, k with
  | Val.vlist (_ :: t), Val.vint 0 => Except.ok (Val.vlist (v :: t))
  | _, _ => Except.error PyErr.attributeError

/-- Concrete `setattr` semantics of the wrapped value. -/
def cSetattr : Val → String → Val → Except PyErr Val := fun _ n v =>
  Except.ok (Val.vdict [(n, v)])

/-- Concrete `getattr` semantics: every attribute resolves to its name. -/
def cGetattrD : Val → String → Except PyErr Val := fun _ n => Except.ok (Val.vstr n)

/-- A concrete root node labelled `D`. -/
def cRootD : Probed := (mkRoot (Val.vdict []) "watch" (some true) 0 "D" cW0).1

/-- The child node `D.x`. -/
def cChild : Probed :=
  match getattr_impl cGetattrD cRootD "x" with
  | .ok (some c) => c
  | _ => cRootD

/-- The grandchild node `D.x.y`. -/
def cGchild : Probed :=
  match getattr_impl cGetattrD cChild "y" with
  | .ok (some c) => c
  | _ => cRootD

/-! ### C10: item access / item assignment / attribute assignment bypass -/

/-- C10: `p[k]`, `p[k] = v`, and `p.name = v` for a non-reserved `name`
act directly on the wrapped value and bypass interception: whatever they
return, the world is unchanged — no event descriptor reaches the
runtime, no verdict is requested (`llm_trace` cannot grow), and no
history record is appended — and the outcome is exactly the direct
operation on the wrapped value. -/
theorem c10_bypass_interception
    (getitem_v : Val → Val → Except PyErr Val)
    (setitem_v : Val → Val → Val → Except PyErr Val)
    (setattr_v : Val → String → Val → Except PyErr Val)
    (p : Probed) (w : World) (k v : Val) (name : String) :
    (∀ r w', Probed.getitem getitem_v p w k = .ok (r, w') →
        w' = w ∧ getitem_v p.obj k = .ok r) ∧
    (∀ p' w', Probed.setitem setitem_v p w k v = .ok (p', w') →
        w' = w ∧ setitem_v p.obj k v = .ok p'.obj) ∧
    (name ∉ RESERVED_FIELDS →
      ∀ p' w', Probed.setattrImpl setattr_v p w name v = .ok (p', w') →
        w' = w ∧ setattr_v p.obj name v = .ok p'.obj) := by
  refine ⟨?_, ?_, ?_⟩
  · intro r w' hr
    unfold Probed.getitem at hr
    cases hg : getitem_v p.obj k with
    | error e => rw [hg] at hr; cases hr
    | ok r0 => rw [hg] at hr; cases hr; exact ⟨rfl, rfl⟩
  · intro p' w' hr
    unfold Probed.setitem at hr
    cases hg : setitem_v p.obj k v with
    | error e => rw [hg] at hr; cases hr
    | ok r0 => rw [hg] at hr; cases hr; exact ⟨rfl, rfl⟩
  · intro hname p' w' hr
    unfold Probed.setattrImpl at hr
    rw [if_neg hname] at hr
    cases hg : setattr_v p.obj name v with
    | error e => rw [hg] at hr; cases hr
    | ok r0 => rw [hg] at hr; cases hr; exact ⟨rfl, rfl⟩

/-- Witness for C10: reading item 0 of the wrapped one-element list
returns the element and leaves the world unchanged. -/
theorem c10_bypass_interception_witness :
    cW0 = cW0 ∧ cGetitem cProbe0.obj (Val.vint 0) = .ok (Val.vint 5) :=
  (c10_bypass_interception cGetitem cSetitem cSetattr cProbe0 cW0
      (Val.vint 0) Val.vnone "x").1 (Val.vint 5) cW0 (by rfl)

/-! ### C9: attribute chaining -/

/-- C9: starting from a root node (one whose entry fields are its own,
as `mkRoot` builds), accessing non-reserved attribute `a` and then `b`
yields child nodes that share the root's instructions (`_prompt`), stop
mode (`_stop_after`), entry and runtime, and whose path label is the
root label extended by `.a.b`; invoking the inner node builds an event
descriptor whose operation path is exactly `rootLabel.a.b`, recorded
under the shared entry. -/
theorem c9_chaining (getattr_v : Val → String → Except PyErr Val)
    (root child gchild : Probed) (a b : String)
    (ha : a ∉ RESERVED_FIELDS) (hb : b ∉ RESERVED_FIELDS)
    (_hrootE : root.entryLabel = root.pathLabel)
    (_hrootS : root.entryStopAfter = root.stop_after)
    (h1 : getattr_impl getattr_v root a = .ok (some child))
    (h2 : getattr_impl getattr_v child b = .ok (some gchild))
    (args : List Val) (kwargs : List (String × Val)) :
    gchild.pathLabel = root.pathLabel ++ "." ++ a ++ "." ++ b ∧
    child.entryLabel = root.entryLabel ∧
    gchild.entryLabel = root.entryLabel ∧
    child.promptTxt = root.promptTxt ∧
    gchild.promptTxt = root.promptTxt ∧
    child.stop_after = root.stop_after ∧
    gchild.stop_after = root.stop_after ∧
    gchild.entryStopAfter = root.entryStopAfter ∧
    child.runtimeId = root.runtimeId ∧
    gchild.runtimeId = root.runtimeId ∧
    mkEventData gchild args kwargs =
      { function := root.pathLabel ++ "." ++ a ++ "." ++ b,
        args := args, kwargs := kwargs } := by
  unfold getattr_impl at h1 h2
  rw [if_neg ha] at h1
  rw [if_neg hb] at h2
  cases hga : getattr_v root.obj a with
  | error e => rw [hga] at h1; cases h1
  | ok oa =>
    rw [hga] at h1
    cases h1
    cases hgb : getattr_v oa b with
    | error e => rw [hgb] at h2; cases h2
    | ok ob =>
      rw [hgb] at h2
      cases h2
      refine ⟨rfl, rfl, rfl, rfl, rfl, rfl, rfl, rfl, rfl, rfl, rfl⟩

/-- Witness for C9: wrapping a dict root `D` and chaining `.x.y` yields
path label `D.x.y` and shared entry fields. -/
theorem c9_chaining_witness :
    (cRootD.pathLabel ++ "." ++ "x" ++ "." ++ "y" = "D.x.y") ∧
    ((cGchild).pathLabel = cRootD.pathLabel ++ "." ++ "x" ++ "." ++ "y" ∧
      cChild.entryLabel = cRootD.entryLabel ∧
      cGchild.entryLabel = cRootD.entryLabel ∧
      cChild.promptTxt = cRootD.promptTxt ∧
      cGchild.promptTxt = cRootD.promptTxt ∧
      cChild.stop_after = cRootD.stop_after ∧
      cGchild.stop_after = cRootD.stop_after ∧
      cGchild.entryStopAfter = cRootD.entryStopAfter ∧
      cChild.runtimeId = cRootD.runtimeId ∧
      cGchild.runtimeId = cRootD.runtimeId ∧
      mkEventData cGchild [Val.vint 1] [] =
        { function := cRootD.pathLabel ++ "." ++ "x" ++ "." ++ "y",
          args := [Val.vint 1], kwargs := [] }) :=
  ⟨by decide,
    c9_chaining cGetattrD cRootD cChild cGchild "x" "y"
      (by decide) (by decide) rfl rfl (by rfl) (by rfl) [Val.vint 1] []⟩

/-! ### C3: instruction-source change and cache invalidation -/

/-- C3, counterexample: the Instruction Source previously held
`"old instructions"` (its hash is the last-seen hash) and the file is
now absent — its effective content changed to empty.  The claim says the
cache must be cleared before the consultation proceeds, but
`get_user_additional_query` hits the `FileNotFoundError` handler, which
returns `""` without comparing hashes: the consultation proceeds and the
response cache still holds its entry. -/
theorem c3_absent_file_counterexample :
    (get_user_additional_query cMd5
        { probed_objects := [], enable_cache := true,
          response_cache := [("k", 0)],
          user_query_hash := cMd5 "old instructions",
          user_query_content := "old instructions" } none).1 = "" ∧
    (get_user_additional_query cMd5
        { probed_objects := [], enable_cache := true,
          response_cache := [("k", 0)],
          user_query_hash := cMd5 "old instructions",
          user_query_content := "old instructions" } none).2.response_cache
      = [("k", 0)] := by
  decide

/-- C3, amended: before every consultation the Instruction Source is
read via `get_user_additional_query`.  When caching is enabled and the
file *exists* with content whose hash differs from the last-seen hash,
the entire response cache is cleared and the new hash and content are
adopted before the consultation proceeds.  When the file is absent,
empty instruction text is returned and no invalidation whatsoever
happens (the hash is not even recomputed); likewise no check happens
when caching is disabled. -/
theorem c3_cache_invalidation_amended (md5hex : String → String) :
    (∀ st content, st.enable_cache = true →
      md5hex content ≠ st.user_query_hash →
      (get_user_additional_query md5hex st (some content)).1 = content ∧
      (get_user_additional_query md5hex st (some content)).2.response_cache = [] ∧
      (get_user_additional_query md5hex st (some content)).2.user_query_hash
        = md5hex content) ∧
    (∀ st, get_user_additional_query md5hex st none = ("", st)) := by
  constructor
  · intro st content hc hh
    refine ⟨?_, ?_, ?_⟩ <;> simp [get_user_additional_query, hc, hh]
  · intro st
    rfl

/-- Witness for C3 (amended): a changed instruction file clears a
non-empty cache and adopts the new hash. -/
theorem c3_cache_invalidation_amended_witness :
    (get_user_additional_query cMd5
        { probed_objects := [], enable_cache := true,
          response_cache := [("k", 0)], user_query_hash := "old",
          user_query_content := "old" } (some "new")).1 = "new" ∧
    (get_user_additional_query cMd5
        { probed_objects := [], enable_cache := true,
          response_cache := [("k", 0)], user_query_hash := "old",
          user_query_content := "old" } (some "new")).2.response_cache = [] ∧
    (get_user_additional_query cMd5
        { probed_objects := [], enable_cache := true,
          response_cache := [("k", 0)], user_query_hash := "old",
          user_query_content := "old" } (some "new")).2.user_query_hash
      = cMd5 "new" :=
  (c3_cache_invalidation_amended cMd5).1
    { probed_objects := [], enable_cache := true,
      response_cache := [("k", 0)], user_query_hash := "old",
      user_query_content := "old" } "new" rfl (by decide)

/-- Reading the instruction source never touches the history map and
preserves the caching flag. -/
theorem get_user_frame (md5hex : String → String) (st : AIRuntime) (file : Option String) :
    (get_user_additional_query md5hex st file).2.enable_cache = st.enable_cache ∧
    (get_user_additional_query md5hex st file).2.probed_objects = st.probed_objects := by
  cases file with
  | none => exact ⟨rfl, rfl⟩
  | some c =>
      unfold get_user_additional_query
      by_cases hc : st.enable_cache
      · by_cases hh : md5hex c ≠ st.user_query_hash
        · simp [hc, hh]
        · simp [hc, hh]
      · simp [Bool.not_eq_true] at hc
        simp [hc]

/-- After reading an existing instruction file with caching enabled, the
last-seen hash is the hash of the file's content. -/
theorem get_user_hash (md5hex : String → String) (st : AIRuntime) (c : String)
    (hc : st.enable_cache = true) :
    (get_user_additional_query md5hex st (some c)).2.user_query_hash = md5hex c := by
  unfold get_user_additional_query
  by_cases hh : md5hex c ≠ st.user_query_hash
  · simp [hc, hh]
  · push_neg at hh
    simp [hc, hh]

/-- When the file is absent or its hash is already the last-seen one,
reading the instruction source changes nothing. -/
theorem get_user_stable (md5hex : String → String) (st : AIRuntime) (file : Option String)
    (h : ∀ c, file = some c → md5hex c = st.user_query_hash) :
    (get_user_additional_query md5hex st file).2 = st := by
  cases file with
  | none => rfl
  | some c =>
      unfold get_user_additional_query
      have hcc := h c rfl
      by_cases hc : st.enable_cache
      · simp [hc, hcc]
      · simp [Bool.not_eq_true] at hc
        simp [hc]

/-- What a successful `ask_model_decisions` guarantees: everything but
the runtime state and the oracle trace is untouched, the caching flag is
preserved, exactly one prompt was issued, and the entry's history grew
by exactly the decision record while other histories are untouched. -/
theorem ask_model_decisions_ok {llm_call : String → String}
    {json_loads : String → Option Val} {md5hex : String → String}
    {w : World} {k ev : String} {r : Bool × Bool × Bool} {w' : World}
    (h : ask_model_decisions llm_call json_loads md5hex w k ev = .ok (r, w')) :
    w'.heap = w.heap ∧ w'.user_query_file = w.user_query_file ∧
    w'.report_log = w.report_log ∧ w'.report_write_ok = w.report_write_ok ∧
    w'.obj_trace = w.obj_trace ∧ w'.now = w.now ∧
    w'.rt.enable_cache = w.rt.enable_cache ∧
    (∃ p, w'.llm_trace = w.llm_trace ++ [p]) ∧
    historyOf w' k = historyOf w k ++ [HRec.decisionRec ev r.1 r.2.1 r.2.2] ∧
    (∀ k', k' ≠ k → historyOf w' k' = historyOf w k') := by
  unfold ask_model_decisions at h
  cases hl : assocGet w.rt.probed_objects k with
  | none => rw [hl] at h; cases h
  | some history =>
    rw [hl] at h
    split at h
    · cases h
    · next output hj =>
        injection hj with hj
        subst hj
        dsimp only at h
        split at h
        · cases h
        · next v hv =>
            split at h
            · next fs =>
                injection h with h1
                injection h1 with hr hw
                subst hw
                subst hr
                obtain ⟨hce, hpo⟩ := get_user_frame md5hex w.rt w.user_query_file
                refine ⟨rfl, rfl, rfl, rfl, rfl, rfl, hce, ⟨_, rfl⟩, ?_, ?_⟩
                · simp [historyOf, assocGet_assocSet_self, hl]
                · intro k' hk'
                  simp [historyOf, assocGet_assocSet_ne _ _ _ _ hk', hpo]
            · cases h

/-- What a successful `listen_event` guarantees: analogous to
`ask_model_decisions_ok`, with a listening record appended. -/
theorem listen_event_ok {llm_call : String → String} {md5hex : String → String}
    {w : World} {k ev : String} {result : Val} {w' : World}
    (h : listen_event llm_call md5hex w k ev result = .ok w') :
    w'.heap = w.heap ∧ w'.user_query_file = w.user_query_file ∧
    w'.report_log = w.report_log ∧ w'.report_write_ok = w.report_write_ok ∧
    w'.obj_trace = w.obj_trace ∧ w'.now = w.now ∧
    w'.rt.enable_cache = w.rt.enable_cache ∧
    (∃ p, w'.llm_trace = w.llm_trace ++ [p]) ∧
    historyOf w' k = historyOf w k ++ [HRec.listenRec (Val.pystr result)] ∧
    (∀ k', k' ≠ k → historyOf w' k' = historyOf w k') := by
  unfold listen_event at h
  cases hl : assocGet w.rt.probed_objects k with
  | none => rw [hl] at h; cases h
  | some history =>
    rw [hl] at h
    dsimp only at h
    injection h with hw
    subst hw
    obtain ⟨hce, hpo⟩ := get_user_frame md5hex w.rt w.user_query_file
    refine ⟨rfl, rfl, rfl, rfl, rfl, rfl, hce, ⟨_, rfl⟩, ?_, ?_⟩
    · simp [historyOf, assocGet_assocSet_self, hl]
    · intro k' hk'
      simp [historyOf, assocGet_assocSet_ne _ _ _ _ hk', hpo]

/-- What a successful `respond_event` guarantees: files, report log, and
object trace untouched; caching flag preserved; at most one prompt
issued; the entry's history extended by at most one record, others
untouched; and — with caching enabled — the last-seen hash matches the
file and the cache holds, under the request's key, an address whose
object is (value-)equal to the returned one. -/
theorem respond_event_ok {llm_call : String → String}
    {json_loads : String → Option Val} {md5hex : String → String}
    {w : World} {k ev sch ex : String} {ret : Nat} {w' : World}
    (h : respond_event llm_call json_loads md5hex w k ev sch ex = .ok (ret, w')) :
    w'.user_query_file = w.user_query_file ∧
    w'.report_log = w.report_log ∧ w'.report_write_ok = w.report_write_ok ∧
    w'.obj_trace = w.obj_trace ∧ w'.now = w.now ∧
    w'.rt.enable_cache = w.rt.enable_cache ∧
    (∃ S, w'.llm_trace = w.llm_trace ++ S ∧ S.length ≤ 1) ∧
    (∃ S, historyOf w' k = historyOf w k ++ S ∧ S.length ≤ 1) ∧
    (∀ k', k' ≠ k → historyOf w' k' = historyOf w k') ∧
    (w.rt.enable_cache = true →
      (∀ c, w.user_query_file = some c → w'.rt.user_query_hash = md5hex c) ∧
      ∃ a, assocGet w'.rt.response_cache (md5hex (ev ++ "|" ++ sch)) = some a ∧
        readHeap w'.heap a = readHeap w'.heap ret) := by
  unfold respond_event at h
  dsimp only at h
  obtain ⟨hce, hpo⟩ := get_user_frame md5hex w.rt w.user_query_file
  split at h
  · next a ha =>
      -- cache hit: deep copy of the cached object
      injection h with h1
      injection h1 with hret hw
      subst hw
      subst hret
      refine ⟨rfl, rfl, rfl, rfl, rfl, hce, ⟨[], by simp⟩,
        ⟨[], by simp [historyOf, hpo], by simp⟩, ?_, ?_⟩
      · intro k' _
        simp [historyOf, hpo]
      · intro hc
        constructor
        · intro c hfile
          rw [hfile] at ha ⊢
          exact get_user_hash md5hex w.rt c hc
        · have hget : assocGet (get_user_additional_query md5hex w.rt w.user_query_file).2.response_cache
              (md5hex (ev ++ "|" ++ sch)) = some a := by
            by_cases hce2 : (get_user_additional_query md5hex w.rt w.user_query_file).2.enable_cache
            · rw [if_pos hce2] at ha; exact ha
            · rw [if_neg hce2] at ha; cases ha
          exact ⟨a, hget, by
            simp only [halloc]
            rw [readHeap_append_copy, readHeap_halloc_fresh]⟩
  · next ha =>
      split at h
      · cases h
      · next history hl =>
          split at h
          · cases h
          · next output hj =>
              injection h with h1
              injection h1 with hret hw
              subst hw
              subst hret
              refine ⟨rfl, rfl, rfl, rfl, rfl, ?_, ⟨_, rfl, by simp⟩, ?_, ?_, ?_⟩
              · by_cases hce2 : (get_user_additional_query md5hex w.rt w.user_query_file).2.enable_cache = true
                · simp [hce2, ← hce]
                · simp [Bool.not_eq_true] at hce2
                  simp [hce2, ← hce]
              · refine ⟨[HRec.respondRec output], ?_, by simp⟩
                have hw2 : (assocGet w.rt.probed_objects k).getD [] = history := by
                  rw [← hpo, hl]; rfl
                by_cases hce2 : (get_user_additional_query md5hex w.rt w.user_query_file).2.enable_cache = true
                · simp [hce2, historyOf, assocGet_assocSet_self, hw2]
                · simp [Bool.not_eq_true] at hce2
                  simp [hce2, historyOf, assocGet_assocSet_self, hw2]
              · intro k' hk'
                by_cases hce2 : (get_user_additional_query md5hex w.rt w.user_query_file).2.enable_cache = true
                · simp [hce2, historyOf, assocGet_assocSet_ne _ _ _ _ hk', hpo]
                · simp [Bool.not_eq_true] at hce2
                  simp [hce2, historyOf, assocGet_assocSet_ne _ _ _ _ hk', hpo]
              · intro hc
                have hce2 : (get_user_additional_query md5hex w.rt w.user_query_file).2.enable_cache = true := by
                  rw [hce, hc]
                constructor
                · intro c hfile
                  rw [hfile] at hce2 ⊢
                  simp [hce2, get_user_hash md5hex w.rt c hc]
                · refine ⟨_, ?_, rfl⟩
                  simp [hce2, assocGet_assocSet_self]

/-- Forward evaluation of `respond_event` on a cache hit: when caching
is enabled, re-reading the instruction source changes nothing, and the
key is cached at address `a`, the call returns a fresh deep copy of the
cached object and leaves everything else alone. -/
theorem respond_event_hit (llm_call : String → String)
    (json_loads : String → Option Val) (md5hex : String → String)
    (w : World) (k ev sch ex : String) (a : Nat)
    (hst : (get_user_additional_query md5hex w.rt w.user_query_file).2 = w.rt)
    (hc : w.rt.enable_cache = true)
    (hhit : assocGet w.rt.response_cache (md5hex (ev ++ "|" ++ sch)) = some a) :
    respond_event llm_call json_loads md5hex w k ev sch ex =
      .ok (w.heap.length, { w with heap := w.heap ++ [readHeap w.heap a] }) := by
  unfold respond_event
  dsimp only
  rw [hst, hc]
  simp only [if_true, hhit]
  rfl

/-- Mutating the object at one address leaves reads of any other address
unchanged. -/
theorem readHeap_write_ne (h : List Val) (a b : Nat) (v : Val) (hab : a ≠ b) :
    readHeap (writeHeap h a v) b = readHeap h b := by
  simp [readHeap, writeHeap, List.getD_eq_getElem?_getD, List.getElem?_set_ne hab]

/-- The first interrupted consultation on `cW0` (a cache miss that
stores the substitute under the key of `("ev", "sch")`). -/
def cFirstCall : Except PyErr (Nat × World) :=
  respond_event cLlm cJlTrue cMd5 cW0 "E" "ev" "sch" "ex"

/-- Address returned by the first consultation. -/
def cA1 : Nat := match cFirstCall with | .ok (a, _) => a | .error _ => 0

/-- World after the first consultation. -/
def cW1 : World := match cFirstCall with | .ok (_, w) => w | .error _ => cW0

/-! ### C2: cache idempotence of the interrupt-response consultation -/

/-- C2: with caching enabled and the Instruction Source unchanged (the
second call runs on the world the first call produced, whose
`user_query.md` is untouched), a second interrupt-response consultation
with the identical event descriptor and schema returns a value equal to
the first call's, issues zero oracle consultations (`llm_trace` is
unchanged), and appends no history record (the runtime state is
bit-identical). -/
theorem c2_cache_idempotence (llm_call : String → String)
    (json_loads : String → Option Val) (md5hex : String → String)
    (w : World) (k ev sch ex : String) (a₁ : Nat) (w₁ : World)
    (hc : w.rt.enable_cache = true)
    (h1 : respond_event llm_call json_loads md5hex w k ev sch ex = .ok (a₁, w₁)) :
    ∃ a₂ w₂,
      respond_event llm_call json_loads md5hex w₁ k ev sch ex = .ok (a₂, w₂) ∧
      readHeap w₂.heap a₂ = readHeap w₁.heap a₁ ∧
      w₂.llm_trace = w₁.llm_trace ∧
      w₂.rt = w₁.rt := by
  obtain ⟨hfile, _, _, _, _, hce, _, _, _, hcache⟩ := respond_event_ok h1
  obtain ⟨hhash, a, hget, hval⟩ := hcache hc
  have hc1 : w₁.rt.enable_cache = true := by rw [hce, hc]
  have hst : (get_user_additional_query md5hex w₁.rt w₁.user_query_file).2 = w₁.rt := by
    apply get_user_stable
    intro c hfc
    rw [hfile] at hfc
    exact (hhash c hfc).symm
  refine ⟨w₁.heap.length, _,
    respond_event_hit llm_call json_loads md5hex w₁ k ev sch ex a hst hc1 hget,
    ?_, rfl, rfl⟩
  calc readHeap (w₁.heap ++ [readHeap w₁.heap a]) w₁.heap.length
      = readHeap w₁.heap a := readHeap_halloc_fresh _ _
    _ = readHeap w₁.heap a₁ := hval

/-- Witness for C2: the concrete first consultation on entry `"E"`
followed by the guaranteed idempotent second consultation. -/
theorem c2_cache_idempotence_witness :
    ∃ a₂ w₂,
      respond_event cLlm cJlTrue cMd5 cW1 "E" "ev" "sch" "ex" = .ok (a₂, w₂) ∧
      readHeap w₂.heap a₂ = readHeap cW1.heap cA1 ∧
      w₂.llm_trace = cW1.llm_trace ∧
      w₂.rt = cW1.rt :=
  c2_cache_idempotence cLlm cJlTrue cMd5 cW0 "E" "ev" "sch" "ex" cA1 cW1
    rfl (by rfl)

/-! ### C6: caller mutation of a returned substitute -/

/-- World after the caller mutates the value the first consultation
returned (in place, to `99`). -/
def cMutated : World := { cW1 with heap := writeHeap cW1.heap cA1 (Val.vint 99) }

/-- The second, identical consultation, after the mutation. -/
def cSecondCall : Except PyErr (Nat × World) :=
  respond_event cLlm cJlTrue cMd5 cMutated "E" "ev" "sch" "ex"

/-- The value the first consultation returned. -/
def cFirstVal : Val :=
  match cFirstCall with
  | .ok (a, w) => readHeap w.heap a
  | .error _ => Val.vnone

/-- The value the second consultation returns. -/
def cSecondVal : Val :=
  match cSecondCall with
  | .ok (a, w) => readHeap w.heap a
  | .error _ => Val.vnone

/-- C6, counterexample: the claim fails for a value returned by the
consultation that first populated the cache entry.  The first
consultation fabricates the substitute and returns the *same* object it
stored in the cache; the caller mutates it to `99`, and the subsequent
identical request returns `99` instead of the original substitute. -/
theorem c6_shared_reference_counterexample :
    cFirstVal = Val.vdict [("should_interrupt", Val.vbool true)] ∧
    cSecondVal = Val.vint 99 ∧
    cSecondVal ≠ cFirstVal := by
  decide

/-- C6, amended: the independence property holds for values returned by
a cache *hit*: a hit returns a fresh deep copy, so mutating it does not
alter the value a subsequent identical request yields.  (It fails for
the value returned by the populating consultation, which aliases the
cache entry — see the counterexample.) -/
theorem c6_cache_hit_copy_amended (llm_call : String → String)
    (json_loads : String → Option Val) (md5hex : String → String)
    (w : World) (k ev sch ex : String) (a : Nat) (v : Val)
    (hst : (get_user_additional_query md5hex w.rt w.user_query_file).2 = w.rt)
    (hc : w.rt.enable_cache = true)
    (hhit : assocGet w.rt.response_cache (md5hex (ev ++ "|" ++ sch)) = some a)
    (hlt : a < w.heap.length) :
    ∃ r w',
      respond_event llm_call json_loads md5hex w k ev sch ex = .ok (r, w') ∧
      readHeap w'.heap r = readHeap w.heap a ∧
      ∃ r₂ w₂,
        respond_event llm_call json_loads md5hex
          { w' with heap := writeHeap w'.heap r v } k ev sch ex = .ok (r₂, w₂) ∧
        readHeap w₂.heap r₂ = readHeap w.heap a := by
  refine ⟨w.heap.length, _,
    respond_event_hit llm_call json_loads md5hex w k ev sch ex a hst hc hhit,
    readHeap_halloc_fresh _ _, ?_⟩
  have hne : w.heap.length ≠ a := Nat.ne_of_gt hlt
  refine ⟨_, _,
    respond_event_hit llm_call json_loads md5hex _ k ev sch ex a hst hc hhit, ?_⟩
  calc readHeap
        (writeHeap (w.heap ++ [readHeap w.heap a]) w.heap.length v ++
          [readHeap (writeHeap (w.heap ++ [readHeap w.heap a]) w.heap.length v) a])
        (writeHeap (w.heap ++ [readHeap w.heap a]) w.heap.length v).length
      = readHeap (writeHeap (w.heap ++ [readHeap w.heap a]) w.heap.length v) a :=
        readHeap_halloc_fresh _ _
    _ = readHeap (w.heap ++ [readHeap w.heap a]) a := readHeap_write_ne _ _ _ _ hne
    _ = readHeap w.heap a := readHeap_append_lt _ _ _ hlt

/-- Witness for C6 (amended): on the world after the first consultation,
a hit returns a copy; mutating it to `99` leaves the next identical
request returning the original substitute. -/
theorem c6_cache_hit_copy_amended_witness :
    ∃ r w',
      respond_event cLlm cJlTrue cMd5 cW1 "E" "ev" "sch" "ex" = .ok (r, w') ∧
      readHeap w'.heap r = readHeap cW1.heap 0 ∧
      ∃ r₂ w₂,
        respond_event cLlm cJlTrue cMd5
          { w' with heap := writeHeap w'.heap r (Val.vint 99) } "E" "ev" "sch" "ex" =
          .ok (r₂, w₂) ∧
        readHeap w₂.heap r₂ = readHeap cW1.heap 0 :=
  c6_cache_hit_copy_amended cLlm cJlTrue cMd5 cW1 "E" "ev" "sch" "ex" 0
    (Val.vint 99) rfl rfl (by rfl) (by decide)

/-- A wrapped callable returning `7`. -/
def cObjCall7 : List Val → List (String × Val) → Except PyErr Val :=
  fun _ _ => .ok (Val.vint 7)

/-- A concrete `json.loads` whose replies parse to a verdict requesting
only a report. -/
def cJlRep : String → Option Val :=
  fun _ => some (Val.vdict [("should_report", Val.vbool true)])

/-- The world after the all-false decision on `cW0`. -/
def cAskFW : World :=
  match ask_model_decisions cLlm cJlFalse cMd5 cW0 "E"
      ((mkEventData cProbe0 [] []).dumps) with
  | .ok (_, w) => w
  | .error _ => cW0

/-- The world after the full non-interrupted call of the C1 witness. -/
def cC1W : World :=
  match Probed.call cLlm cJlFalse cMd5 cObjCall7 none false cProbe0 cW0 [] [] with
  | .ok (_, w) => w
  | .error _ => cW0

/-- The world after the reporting decision of the C5 witness. -/
def cC5AskW : World :=
  match ask_model_decisions cLlm cJlRep cMd5 { cW0 with report_write_ok := false }
      "E" ((mkEventData cProbe0 [Val.vint 3] []).dumps) with
  | .ok (_, w) => w
  | .error _ => cW0

/-- A successful report step only appends to the report log. -/
theorem reportStep_ok {ev : String} {sr : Bool} {w w' : World}
    (h : reportStep ev sr w = .ok w') :
    w'.rt = w.rt ∧ w'.heap = w.heap ∧ w'.user_query_file = w.user_query_file ∧
    w'.report_write_ok = w.report_write_ok ∧ w'.llm_trace = w.llm_trace ∧
    w'.obj_trace = w.obj_trace ∧ w'.now = w.now := by
  unfold reportStep at h
  split at h
  · split at h
    · injection h with hw
      subst hw
      exact ⟨rfl, rfl, rfl, rfl, rfl, rfl, rfl⟩
    · cases h
  · injection h with hw
    subst hw
    exact ⟨rfl, rfl, rfl, rfl, rfl, rfl, rfl⟩

/-! ### C1: non-interrupted calls return the real result -/

/-- C1: when the verdict for an intercepted call has
`should_interrupt = false` and the call completes, the value returned by
`Probed.__call__` is exactly the result of invoking the wrapped callable
directly with the same positional and keyword arguments. -/
theorem c1_uninterrupted_passthrough (llm_call : String → String)
    (json_loads : String → Option Val) (md5hex : String → String)
    (objCall : List Val → List (String × Val) → Except PyErr Val)
    (objDoc : Option String) (envStop : Bool) (p : Probed) (w : World)
    (args : List Val) (kwargs : List (String × Val)) (sr ss : Bool)
    (w₁ : World) (v : Val) (w' : World)
    (hask : ask_model_decisions llm_call json_loads md5hex w p.entryLabel
        ((mkEventData p args kwargs).dumps) = .ok ((false, sr, ss), w₁))
    (hcall : Probed.call llm_call json_loads md5hex objCall objDoc envStop
        p w args kwargs = .ok (v, w')) :
    objCall args kwargs = .ok v := by
  unfold Probed.call at hcall
  dsimp only at hcall
  rw [hask] at hcall
  dsimp only at hcall
  cases hrep : reportStep ((mkEventData p args kwargs).dumps) sr w₁ with
  | error e => rw [hrep] at hcall; cases hcall
  | ok w₂ =>
      rw [hrep] at hcall
      dsimp only at hcall
      cases hobj : objCall args kwargs with
      | error e => rw [hobj] at hcall; cases hcall
      | ok r =>
          rw [hobj] at hcall
          dsimp only at hcall
          cases hlis : listen_event llm_call md5hex (recordObjAttempt args kwargs w₂)
              p.entryLabel ((mkEventData p args kwargs).dumps) r with
          | error e => rw [hlis] at hcall; cases hcall
          | ok w₄ =>
              rw [hlis] at hcall
              injection hcall with h1
              injection h1 with hv hw
              rw [hv]

/-- Witness for C1: the oracle answers with no flags set, so the wrapped
callable's result `7` is returned. -/
theorem c1_uninterrupted_passthrough_witness :
    cObjCall7 [] [] = .ok (Val.vint 7) :=
  c1_uninterrupted_passthrough cLlm cJlFalse cMd5 cObjCall7 none false
    cProbe0 cW0 [] [] false false cAskFW (Val.vint 7) cC1W
    (by rfl) (by rfl)

/-! ### C5: audit-log write failure -/

/-- C5, counterexample: the claim says a failing audit-log write must
not abort the intercepted operation, but the source wraps the
`report.md` append in no handler: with `should_report = true` and a
failing write, the call raises and produces no result at all. -/
theorem c5_report_failure_counterexample :
    Probed.call cLlm cJlRep cMd5 cObjCall7 none false cProbe0
      { cW0 with report_write_ok := false } [] [] = .error PyErr.ioError := by
  rfl

/-- C5, amended: when the verdict has `should_report = true` and
appending the timestamped record to the Audit Log fails, the failure
propagates and aborts the intercepted operation — the caller gets the
error instead of any (real or substituted) result. -/
theorem c5_report_failure_aborts (llm_call : String → String)
    (json_loads : String → Option Val) (md5hex : String → String)
    (objCall : List Val → List (String × Val) → Except PyErr Val)
    (objDoc : Option String) (envStop : Bool) (p : Probed) (w : World)
    (args : List Val) (kwargs : List (String × Val)) (si ss : Bool) (w₁ : World)
    (hask : ask_model_decisions llm_call json_loads md5hex w p.entryLabel
        ((mkEventData p args kwargs).dumps) = .ok ((si, true, ss), w₁))
    (hfail : w.report_write_ok = false) :
    Probed.call llm_call json_loads md5hex objCall objDoc envStop
      p w args kwargs = .error PyErr.ioError := by
  have hw1 : w₁.report_write_ok = false := by
    obtain ⟨_, _, _, hrwo, _⟩ := ask_model_decisions_ok hask
    rw [hrwo, hfail]
  unfold Probed.call
  dsimp only
  rw [hask]
  dsimp only
  unfold reportStep
  rw [hw1]
  rfl

/-- Witness for C5 (amended): a concrete reporting verdict with a
failing audit log aborts the call. -/
theorem c5_report_failure_aborts_witness :
    Probed.call cLlm cJlRep cMd5 cObjCall7 none true cProbe0
      { cW0 with report_write_ok := false } [Val.vint 3] [] =
      .error PyErr.ioError :=
  c5_report_failure_aborts cLlm cJlRep cMd5 cObjCall7 none true cProbe0
    { cW0 with report_write_ok := false } [Val.vint 3] [] false false
    cC5AskW (by rfl) rfl

/-! ### C7: histories only grow -/

/-- C7: every runtime operation only extends an entry's transcript (the
previous transcript is a prefix of the new one) and never touches other
entries' transcripts: registering a fresh entry seeds it with its
initialization record, a decision appends exactly one record, a listen
acknowledgement appends exactly one record, an interrupt response
appends at most one record (zero exactly on a cache hit), and a full
intercepted call grows the entry's transcript by exactly one record
(decision only) or two records (decision plus outcome). -/
theorem c7_history_append_only (llm_call : String → String)
    (json_loads : String → Option Val) (md5hex : String → String)
    (objCall : List Val → List (String × Val) → Except PyErr Val)
    (objDoc : Option String) (envStop : Bool) :
    (∀ w (p : Probed), assocGet w.rt.probed_objects p.entryLabel = none →
      historyOf (register_probing w p) p.entryLabel =
        historyOf w p.entryLabel ++
          [HRec.initRec (Val.pyTypeName p.obj) (Val.pystr p.obj) p.promptTxt]) ∧
    (∀ w k ev r w',
      ask_model_decisions llm_call json_loads md5hex w k ev = .ok (r, w') →
      historyOf w' k = historyOf w k ++ [HRec.decisionRec ev r.1 r.2.1 r.2.2] ∧
      ∀ k', k' ≠ k → historyOf w' k' = historyOf w k') ∧
    (∀ w k ev res w', listen_event llm_call md5hex w k ev res = .ok w' →
      historyOf w' k = historyOf w k ++ [HRec.listenRec (Val.pystr res)] ∧
      ∀ k', k' ≠ k → historyOf w' k' = historyOf w k') ∧
    (∀ w k ev sch ex ret w',
      respond_event llm_call json_loads md5hex w k ev sch ex = .ok (ret, w') →
      (∃ S, historyOf w' k = historyOf w k ++ S ∧ S.length ≤ 1) ∧
      ∀ k', k' ≠ k → historyOf w' k' = historyOf w k') ∧
    (∀ (p : Probed) w args kwargs v w',
      Probed.call llm_call json_loads md5hex objCall objDoc envStop
          p w args kwargs = .ok (v, w') →
      ∃ S, historyOf w' p.entryLabel = historyOf w p.entryLabel ++ S ∧
        (S.length = 1 ∨ S.length = 2)) := by
  refine ⟨?_, ?_, ?_, ?_, ?_⟩
  · intro w p hfresh
    simp [historyOf, register_probing, assocGet_assocSet_self, hfresh]
  · intro w k ev r w' h
    obtain ⟨_, _, _, _, _, _, _, _, hh, ho⟩ := ask_model_decisions_ok h
    exact ⟨hh, ho⟩
  · intro w k ev res w' h
    obtain ⟨_, _, _, _, _, _, _, _, hh, ho⟩ := listen_event_ok h
    exact ⟨hh, ho⟩
  · intro w k ev sch ex ret w' h
    obtain ⟨_, _, _, _, _, _, _, hh, ho, _⟩ := respond_event_ok h
    exact ⟨hh, ho⟩
  · intro p w args kwargs v w' hcall
    unfold Probed.call at hcall
    dsimp only at hcall
    cases hask : ask_model_decisions llm_call json_loads md5hex w p.entryLabel
        ((mkEventData p args kwargs).dumps) with
    | error e => rw [hask] at hcall; cases hcall
    | ok rw1 =>
      obtain ⟨⟨si, sr, ss⟩, w₁⟩ := rw1
      rw [hask] at hcall
      dsimp only at hcall
      obtain ⟨_, _, _, _, _, _, _, _, hh1, _⟩ := ask_model_decisions_ok hask
      cases hrep : reportStep ((mkEventData p args kwargs).dumps) sr w₁ with
      | error e => rw [hrep] at hcall; cases hcall
      | ok w₂ =>
        rw [hrep] at hcall
        dsimp only at hcall
        obtain ⟨hrt2, _⟩ := reportStep_ok hrep
        have hh2 : historyOf w₂ p.entryLabel = historyOf w₁ p.entryLabel := by
          simp [historyOf, hrt2]
        cases hsi : si with
        | true =>
          rw [hsi] at hcall
          rw [if_pos rfl] at hcall
          split at hcall
          · cases hcall
          next a w₄ hresp =>
            injection hcall with h1
            injection h1 with hv hw
            subst hw
            obtain ⟨_, _, _, _, _, _, _, ⟨S, hS, hSle⟩, _, _⟩ := respond_event_ok hresp
            have hh3 : historyOf (recordObjAttempt args kwargs w₂) p.entryLabel =
                historyOf w₂ p.entryLabel := rfl
            refine ⟨[HRec.decisionRec ((mkEventData p args kwargs).dumps) si sr ss] ++ S, ?_, ?_⟩
            · rw [hS, hh3, hh2, hh1]
              simp [hsi]
            · rcases Nat.le_one_iff_eq_zero_or_eq_one.mp hSle with h0 | h1
              · left
                simp [h0, hsi]
              · right
                simp [h1, hsi]
        | false =>
          rw [hsi] at hcall
          rw [if_neg Bool.false_ne_true] at hcall
          split at hcall
          · cases hcall
          next r hobj =>
            split at hcall
            · cases hcall
            next w₄ hlis =>
              injection hcall with h1
              injection h1 with hv hw
              subst hw
              obtain ⟨_, _, _, _, _, _, _, _, hh4, _⟩ := listen_event_ok hlis
              refine ⟨[HRec.decisionRec ((mkEventData p args kwargs).dumps) si sr ss,
                HRec.listenRec (Val.pystr r)], ?_, Or.inr rfl⟩
              have hh3 : historyOf (recordObjAttempt args kwargs w₂) p.entryLabel =
                  historyOf w₂ p.entryLabel := rfl
              rw [hh4, hh3, hh2, hh1]
              simp [hsi]

/-- Witness for C7: the concrete non-interrupted call of the C1 witness
grows the entry's transcript by one or two records (here: two). -/
theorem c7_history_append_only_witness :
    ∃ S, historyOf cC1W "E" = historyOf cW0 "E" ++ S ∧
      (S.length = 1 ∨ S.length = 2) :=
  (c7_history_append_only cLlm cJlFalse cMd5 cObjCall7 none false).2.2.2.2
    cProbe0 cW0 [] [] (Val.vint 7) cC1W (by rfl)

/-! ### C8: interrupt path — best-effort example, swallowed failure,
substitute returned -/

/-- C8: on an interrupted call the wrapped callable is invoked exactly
once, purely to harvest an example (first conjunct: the completed call
recorded exactly one invocation of the wrapped callable).  If that
attempt raises, the exception is swallowed and the placeholder example
`"No example provided"` is given to the interrupt-response consultation
(second conjunct); if it succeeds, its result is used only as the
rendered example string of that consultation (third conjunct).  In
either case the value returned to the caller is the dereferenced
oracle-fabricated substitute, never the real invocation's result. -/
theorem c8_interrupt_example_harvest (llm_call : String → String)
    (json_loads : String → Option Val) (md5hex : String → String)
    (objCall : List Val → List (String × Val) → Except PyErr Val)
    (objDoc : Option String) (envStop : Bool) :
    (∀ (p : Probed) w args kwargs sr ss w₁ v w',
      ask_model_decisions llm_call json_loads md5hex w p.entryLabel
          ((mkEventData p args kwargs).dumps) = .ok ((true, sr, ss), w₁) →
      Probed.call llm_call json_loads md5hex objCall objDoc envStop
          p w args kwargs = .ok (v, w') →
      w'.obj_trace = w.obj_trace ++ [(args, kwargs)]) ∧
    (∀ (p : Probed) w args kwargs sr ss w₁ w₂ e a w₄,
      ask_model_decisions llm_call json_loads md5hex w p.entryLabel
          ((mkEventData p args kwargs).dumps) = .ok ((true, sr, ss), w₁) →
      reportStep ((mkEventData p args kwargs).dumps) sr w₁ = .ok w₂ →
      objCall args kwargs = .error e →
      respond_event llm_call json_loads md5hex (recordObjAttempt args kwargs w₂)
          p.entryLabel ((mkEventData p args kwargs).dumps)
          (match objDoc with | some d => d | none => "None")
          "No example provided" = .ok (a, w₄) →
      Probed.call llm_call json_loads md5hex objCall objDoc envStop
          p w args kwargs = .ok (readHeap w₄.heap a, w₄)) ∧
    (∀ (p : Probed) w args kwargs sr ss w₁ w₂ r a w₄,
      ask_model_decisions llm_call json_loads md5hex w p.entryLabel
          ((mkEventData p args kwargs).dumps) = .ok ((true, sr, ss), w₁) →
      reportStep ((mkEventData p args kwargs).dumps) sr w₁ = .ok w₂ →
      objCall args kwargs = .ok r →
      respond_event llm_call json_loads md5hex (recordObjAttempt args kwargs w₂)
          p.entryLabel ((mkEventData p args kwargs).dumps)
          (match objDoc with | some d => d | none => "None")
          (Val.pystr r) = .ok (a, w₄) →
      Probed.call llm_call json_loads md5hex objCall objDoc envStop
          p w args kwargs = .ok (readHeap w₄.heap a, w₄)) := by
  refine ⟨?_, ?_, ?_⟩
  · intro p w args kwargs sr ss w₁ v w' hask hcall
    unfold Probed.call at hcall
    dsimp only at hcall
    rw [hask] at hcall
    dsimp only at hcall
    cases hrep : reportStep ((mkEventData p args kwargs).dumps) sr w₁ with
    | error e => rw [hrep] at hcall; cases hcall
    | ok w₂ =>
      rw [hrep] at hcall
      dsimp only at hcall
      rw [if_pos rfl] at hcall
      split at hcall
      · cases hcall
      next a w₄ hresp =>
        injection hcall with h1
        injection h1 with hv hw
        subst hw
        obtain ⟨_, _, _, hobjt, _⟩ := respond_event_ok hresp
        obtain ⟨hrt2, _, _, _, _, hobjt2, _⟩ := reportStep_ok hrep
        obtain ⟨_, _, _, _, hobjt1, _⟩ := ask_model_decisions_ok hask
        rw [hobjt]
        show (recordObjAttempt args kwargs w₂).obj_trace = w.obj_trace ++ [(args, kwargs)]
        unfold recordObjAttempt
        rw [hobjt2, hobjt1]
  · intro p w args kwargs sr ss w₁ w₂ e a w₄ hask hrep hobj hresp
    unfold Probed.call
    dsimp only
    rw [hask]
    dsimp only
    rw [hrep]
    dsimp only
    rw [if_pos rfl]
    rw [hobj]
    dsimp only
    rw [hresp]
  · intro p w args kwargs sr ss w₁ w₂ r a w₄ hask hrep hobj hresp
    unfold Probed.call
    dsimp only
    rw [hask]
    dsimp only
    rw [hrep]
    dsimp only
    rw [if_pos rfl]
    rw [hobj]
    dsimp only
    rw [hresp]

/-- The decision world of the C8 witness (interrupt requested). -/
def cAskTW : World :=
  match ask_model_decisions cLlm cJlTrue cMd5 cW0 "E"
      ((mkEventData cProbe0 [] []).dumps) with
  | .ok (_, w) => w
  | .error _ => cW0

/-- A wrapped callable that always raises. -/
def cObjFail : List Val → List (String × Val) → Except PyErr Val :=
  fun _ _ => .error .objException

/-- The interrupt-response consultation of the C8 witness, with the
placeholder example. -/
def cC8Resp : Except PyErr (Nat × World) :=
  respond_event cLlm cJlTrue cMd5 (recordObjAttempt [] [] cAskTW) "E"
    ((mkEventData cProbe0 [] []).dumps) "None" "No example provided"

/-- Its returned address / world. -/
def cC8A : Nat := match cC8Resp with | .ok (a, _) => a | .error _ => 0

def cC8W4 : World := match cC8Resp with | .ok (_, w) => w | .error _ => cW0

/-- The interrupt-response consultation of the C8 witness when the
wrapped callable succeeded with `7` (rendered example `"7"`). -/
def cC8SResp : Except PyErr (Nat × World) :=
  respond_event cLlm cJlTrue cMd5 (recordObjAttempt [] [] cAskTW) "E"
    ((mkEventData cProbe0 [] []).dumps) "None" (Val.pystr (Val.vint 7))

/-- Its returned address. -/
def cC8SA : Nat := match cC8SResp with | .ok (a, _) => a | .error _ => 0

/-- Its returned world. -/
def cC8SW4 : World := match cC8SResp with | .ok (_, w) => w | .error _ => cW0

/-- Witness for C8, covering both harvest outcomes: when the wrapped
callable raises, the exception is swallowed and the call returns the
oracle substitute; when it succeeds with `7`, the call still returns
the oracle substitute, which differs from the real result `7`. -/
theorem c8_interrupt_example_harvest_witness :
    (Probed.call cLlm cJlTrue cMd5 cObjFail none false cProbe0 cW0 [] [] =
      .ok (readHeap cC8W4.heap cC8A, cC8W4)) ∧
    (cObjCall7 [] [] = .ok (Val.vint 7) ∧
     Probed.call cLlm cJlTrue cMd5 cObjCall7 none false cProbe0 cW0 [] [] =
      .ok (readHeap cC8SW4.heap cC8SA, cC8SW4) ∧
     readHeap cC8SW4.heap cC8SA ≠ Val.vint 7) :=
  ⟨(c8_interrupt_example_harvest cLlm cJlTrue cMd5 cObjFail none false).2.1
      cProbe0 cW0 [] [] false false cAskTW cAskTW PyErr.objException cC8A cC8W4
      (by rfl) (by rfl) rfl (by rfl),
    rfl,
    (c8_interrupt_example_harvest cLlm cJlTrue cMd5 cObjCall7 none false).2.2
      cProbe0 cW0 [] [] false false cAskTW cAskTW (Val.vint 7) cC8SA cC8SW4
      (by rfl) (by rfl) rfl (by rfl),
    by decide⟩
